import Mathlib

/-!
# Verification of the route/navigation core of `src/src/components/MapViewer.tsx`

A shallow embedding of the route-itinerary builder, the maneuver formatter,
the distance/duration formatters, the route-related React state transitions,
and the `VoiceGuidance` narration wrapper of the `MapViewer` component.

Conventions of the embedding:
* JavaScript numbers are modelled as rationals (`ℚ`); `Math.floor`,
  `Math.round`, `%` and `toFixed(1)` are given their exact real-number
  semantics on the non-negative values the component handles.
* Optional/absent JavaScript values are `Option`; the `a || b` idiom on
  strings (where both `undefined` and `""` are falsy) is `orDefault`.
* The asynchronous `calculateRoute` handler is modelled as a pure state
  transition parameterised by the outcome of the `fetch` (with `none`
  standing for a network or JSON failure, i.e. the `catch` path).
* The browser speech queue touched by `speechSynthesis.speak`/`cancel`
  is part of the `VoiceGuidance` state so that the cancellation and
  at-most-one-utterance behaviour is expressible.
-/

namespace MapViewer

/-- JS truthiness of an optional string: `undefined` and `""` are falsy. -/
def strTruthy : Option String → Bool
  | some s => !(s == "")
  | none => false

/-- Embedding of the JS idiom `a || b` for an optional string `a` with
default `b`: the default is taken when `a` is `undefined` or `""`. -/
def orDefault (o : Option String) (d : String) : String :=
  match o with
  | some s => if s = "" then d else s
  | none => d

/-- Embedding of `Math.floor` on the rational model of JS numbers. -/
def jsFloor (q : ℚ) : ℤ := Rat.floor q

/-- Embedding of `Math.round`: floor of the argument plus one half. -/
def jsRound (q : ℚ) : ℤ := Rat.floor (q + 1/2)

/-- Truncation toward zero, the rounding used by the JS `%` operator. -/
def ratTrunc (q : ℚ) : ℤ := if 0 ≤ q then Rat.floor q else -Rat.floor (-q)

/-- Embedding of the JS remainder `a % b` (remainder carries the sign of
the dividend, i.e. truncated division). -/
def jsMod (a b : ℚ) : ℚ := a - b * (ratTrunc (a / b) : ℚ)

/-- Embedding of `Number.toFixed(1)` for the non-negative values this
component feeds it: round to the nearest tenth (ties up, as specified for
positive arguments) and print one digit after the decimal point. -/
def toFixedOne (q : ℚ) : String :=
  toString ((Rat.floor (q * 10 + 1/2)).toNat / 10) ++ "." ++
    toString ((Rat.floor (q * 10 + 1/2)).toNat % 10)

/-- `formatDistance` (MapViewer.tsx lines 569-574): kilometres to one
decimal place from 1000 m upward, otherwise rounded whole metres. -/
def formatDistance (meters : ℚ) : String :=
  if 1000 ≤ meters then toFixedOne (meters / 1000) ++ " km"
  else toString (jsRound meters) ++ " m"

/-- `formatDuration` (MapViewer.tsx lines 576-584): `"{h}h {m}m"` when at
least one whole hour, otherwise `"{m} min"`. -/
def formatDuration (seconds : ℚ) : String :=
  if 0 < jsFloor (seconds / 3600) then
    toString (jsFloor (seconds / 3600)) ++ "h " ++
      toString (jsFloor (jsMod seconds 3600 / 60)) ++ "m"
  else toString (jsFloor (jsMod seconds 3600 / 60)) ++ " min"

/-- The `roadName` template prefix of `formatManeuver`:
`name ? ` onto ${name}` : ''`. -/
def jsRoadName (name : Option String) : String :=
  match name with
  | some n => if n = "" then "" else " onto " ++ n
  | none => ""

/-- `formatManeuver` (MapViewer.tsx lines 425-454): the switch on the raw
maneuver type, written as the equivalent chain of equality tests (a JS
`switch` compares with strict equality; the fall-through groups
`continue`/`new name` and `roundabout`/`rotary` become disjunctions). -/
def formatManeuver (type modifier name : Option String) : String :=
  if type = some "depart" then "Start" ++ jsRoadName name
  else if type = some "arrive" then "You have arrived at your destination"
  else if type = some "turn" then
    "Turn " ++ orDefault modifier "slightly" ++ jsRoadName name
  else if type = some "continue" ∨ type = some "new name" then
    "Continue" ++ jsRoadName name
  else if type = some "merge" then
    "Merge " ++ orDefault modifier "" ++ jsRoadName name
  else if type = some "on ramp" then
    "Take the ramp " ++ orDefault modifier "" ++ jsRoadName name
  else if type = some "off ramp" then "Take the exit" ++ jsRoadName name
  else if type = some "fork" then
    "Keep " ++ orDefault modifier "straight" ++ jsRoadName name
  else if type = some "end of road" then
    "Turn " ++ orDefault modifier "left" ++ jsRoadName name
  else if type = some "roundabout" ∨ type = some "rotary" then
    "Enter the roundabout" ++ jsRoadName name
  else "Continue" ++ jsRoadName name

/-- The maneuver types named by a case of the `switch` in `formatManeuver`;
anything else reaches the `default` case. -/
def recognizedManeuverTypes : List String :=
  ["depart", "arrive", "turn", "continue", "new name", "merge",
   "on ramp", "off ramp", "fork", "end of road", "roundabout", "rotary"]

/-- The fields of a raw OSRM maneuver object that `calculateRoute` reads
(`step.maneuver?.type`, `?.modifier`, `?.location`, `?.instruction`);
each may be absent in the response. -/
structure RawManeuver where
  type : Option String
  modifier : Option String
  location : Option (ℚ × ℚ)
  instruction : Option String
deriving DecidableEq

/-- A raw step of a leg of an OSRM route candidate, as read by
`calculateRoute`: the whole `maneuver` object may be absent. -/
structure RawStep where
  maneuver : Option RawManeuver
  distance : ℚ
  duration : ℚ
  name : Option String
deriving DecidableEq

/-- A raw leg of an OSRM route candidate; `leg.steps` may be absent
(the code guards with `if (leg.steps)`). -/
structure RawLeg where
  steps : Option (List RawStep)
deriving DecidableEq

/-- A raw OSRM route candidate: top-level distance (metres) and duration
(seconds), GeoJSON line geometry, and an optional list of legs. -/
structure RawRoute where
  distance : ℚ
  duration : ℚ
  geometry : List (ℚ × ℚ)
  legs : Option (List RawLeg)
deriving DecidableEq

/-- A parsed OSRM routing response: the `code` status field and the list
of route candidates. -/
structure RoutingResponse where
  code : String
  routes : List RawRoute
deriving DecidableEq

/-- The `maneuver` field of the `NavigationStep` interface
(MapViewer.tsx lines 81-85). The `location` stays optional because the
code copies `step.maneuver?.location` through unchecked. -/
structure Maneuver where
  type : String
  modifier : Option String
  location : Option (ℚ × ℚ)
deriving DecidableEq

/-- The `NavigationStep` interface (MapViewer.tsx lines 77-87). -/
structure NavigationStep where
  instruction : String
  distance : ℚ
  duration : ℚ
  maneuver : Maneuver
  name : String
deriving DecidableEq

/-- The `RouteInfo` interface (MapViewer.tsx lines 94-99). -/
structure RouteInfo where
  distance : ℚ
  duration : ℚ
  geometry : List (ℚ × ℚ)
  steps : List NavigationStep
deriving DecidableEq

/-- The body of the `leg.steps.forEach` push in `calculateRoute`
(MapViewer.tsx lines 376-386): build one `NavigationStep` from a raw
step, applying the `||` defaults of the source. -/
def buildStep (step : RawStep) : NavigationStep :=
  { instruction :=
      orDefault (step.maneuver.bind RawManeuver.instruction)
        (formatManeuver (step.maneuver.bind RawManeuver.type)
          (step.maneuver.bind RawManeuver.modifier) step.name)
    distance := step.distance
    duration := step.duration
    maneuver :=
      { type := orDefault (step.maneuver.bind RawManeuver.type) "continue"
        modifier := step.maneuver.bind RawManeuver.modifier
        location := step.maneuver.bind RawManeuver.location }
    name := orDefault step.name "Unnamed road" }

/-- The steps contributed by one leg: `if (leg.steps) leg.steps.forEach(push ...)`.
An absent `steps` array contributes nothing (a present but empty array is
truthy in JS and contributes an empty run). -/
def legSteps (leg : RawLeg) : List NavigationStep :=
  match leg.steps with
  | some ss => ss.map buildStep
  | none => []

/-- The step-extraction loop of `calculateRoute` (MapViewer.tsx lines
371-390): guarded by `route.legs && route.legs.length > 0`, every leg's
steps are pushed in leg order. -/
def extractSteps (legs : Option (List RawLeg)) : List NavigationStep :=
  match legs with
  | some ls => if 0 < ls.length then ls.flatMap legSteps else []
  | none => []

/-- The response-processing core of `calculateRoute` (MapViewer.tsx lines
366-397): when `data.code === "Ok" && data.routes.length > 0`, the first
candidate `data.routes[0]` becomes the `RouteInfo`, with the top-level
distance and duration copied verbatim; otherwise no itinerary is built. -/
def calculateRoute (data : RoutingResponse) : Option RouteInfo :=
  if data.code = "Ok" ∧ 0 < data.routes.length then
    match data.routes.head? with
    | some route =>
      some { distance := route.distance
             duration := route.duration
             geometry := route.geometry
             steps := extractSteps route.legs }
    | none => none
  else none

/-- The `RoutePoint` interface (MapViewer.tsx lines 89-92). -/
structure RoutePoint where
  lngLat : ℚ × ℚ
  name : Option String
deriving DecidableEq

/-- The `TravelMode` union type (MapViewer.tsx line 41). -/
inductive TravelMode where
  | driving
  | cycling
  | walking
deriving DecidableEq

/-- The route-related React state of the `MapViewer` component
(MapViewer.tsx lines 206-217): the `selectingPoint` union
`"start" | "end" | null` is kept as an optional string. -/
structure MapState where
  startPoint : Option RoutePoint
  endPoint : Option RoutePoint
  routeInfo : Option RouteInfo
  isCalculatingRoute : Bool
  travelMode : TravelMode
  selectingPoint : Option String
  showSteps : Bool
  currentStepIndex : ℕ
deriving DecidableEq

/-- The initial values of the route-related `useState` hooks
(MapViewer.tsx lines 206-217). -/
def initialMapState : MapState :=
  { startPoint := none
    endPoint := none
    routeInfo := none
    isCalculatingRoute := false
    travelMode := TravelMode.driving
    selectingPoint := none
    showSteps := false
    currentStepIndex := 0 }

/-- The `onClick` handler of the clear (X) button on the start-point row
(MapViewer.tsx lines 873-877): `setStartPoint(null); setSelectingPoint("start")`. -/
def clearStartPoint (s : MapState) : MapState :=
  { s with startPoint := none, selectingPoint := some "start" }

/-- The `onClick` handler of the clear (X) button on the end-point row
(MapViewer.tsx lines 911-915): `setEndPoint(null); setSelectingPoint("end")`. -/
def clearEndPoint (s : MapState) : MapState :=
  { s with endPoint := none, selectingPoint := some "end" }

/-- `clearRoute` (MapViewer.tsx lines 508-529), restricted to its React
state updates (it additionally removes map layers and markers and calls
`voiceGuidance.stop()`, which live outside `MapState`). -/
def clearRoute (s : MapState) : MapState :=
  { s with startPoint := none
           endPoint := none
           routeInfo := none
           selectingPoint := some "start"
           showSteps := false
           currentStepIndex := 0 }

/-- The state update of `goToStep` (MapViewer.tsx lines 555-567):
`setCurrentStepIndex(index)`; its narration and map pan are side effects
outside `MapState`. -/
def goToStep (s : MapState) (index : ℕ) : MapState :=
  { s with currentStepIndex := index }

/-- The travel-mode selector button handler (MapViewer.tsx line 834):
`setTravelMode(mode)`. -/
def setTravelMode (s : MapState) (mode : TravelMode) : MapState :=
  { s with travelMode := mode }

/-- One complete run of the async `calculateRoute` handler
(MapViewer.tsx lines 352-422) as a state transition. The `fetch` outcome
is a parameter: `none` is a network or JSON failure (the `catch` path),
`some data` a parsed response. The early return also fires when the map
handle is absent; that guard is outside `MapState` and is not modelled.
In every path the `finally` clause clears `isCalculatingRoute`, and
`currentStepIndex` is never written. -/
def runCalculateRoute (s : MapState) (fetchResult : Option RoutingResponse) :
    MapState :=
  if s.startPoint.isNone ∨ s.endPoint.isNone then s
  else
    let s1 := { s with isCalculatingRoute := true, routeInfo := none }
    let s2 :=
      match fetchResult with
      | none => s1
      | some data =>
        match calculateRoute data with
        | some info => { s1 with routeInfo := some info }
        | none => s1
    { s2 with isCalculatingRoute := false }

/-- The `VoiceGuidance` class (MapViewer.tsx lines 138-188), together with
the state of the platform speech service it drives: `queue` is the list of
utterances currently held by `window.speechSynthesis` (`synth.cancel()`
empties it, `synth.speak(u)` appends `u`), and `speaking` is the private
flag maintained by the `onstart`/`onend`/`onerror` callbacks. -/
structure VoiceGuidance where
  enabled : Bool
  speaking : Bool
  queue : List String
deriving DecidableEq

namespace VoiceGuidance

/-- The state after `new VoiceGuidance()`: enabled, not speaking, and an
idle speech service. -/
def init : VoiceGuidance :=
  { enabled := true, speaking := false, queue := [] }

/-- `speak(text)` (MapViewer.tsx lines 147-170): bail out when disabled or
already speaking; otherwise cancel whatever the speech service holds and
hand it the new utterance. -/
def speak (v : VoiceGuidance) (text : String) : VoiceGuidance :=
  if !v.enabled || v.speaking then v
  else { v with queue := [text] }

/-- `toggle()` (MapViewer.tsx lines 172-178): flip `enabled`; when the new
value is disabled, `synth.cancel()` drops any in-progress utterance. -/
def toggle (v : VoiceGuidance) : VoiceGuidance :=
  if v.enabled then { v with enabled := false, queue := [] }
  else { v with enabled := true }

/-- The `utterance.onstart` callback: the platform began speaking. -/
def onUtteranceStart (v : VoiceGuidance) : VoiceGuidance :=
  { v with speaking := true }

/-- The `utterance.onend`/`onerror` callbacks: the platform finished (or
abandoned) the current utterance, which leaves its queue. -/
def onUtteranceEnd (v : VoiceGuidance) : VoiceGuidance :=
  { v with speaking := false, queue := v.queue.drop 1 }

/-- `isEnabled()` (MapViewer.tsx lines 180-182). -/
def isEnabled (v : VoiceGuidance) : Bool := v.enabled

/-- `stop()` (MapViewer.tsx lines 184-187): cancel the speech service and
clear the speaking flag. -/
def stop (v : VoiceGuidance) : VoiceGuidance :=
  { v with queue := [], speaking := false }

end VoiceGuidance

/-! ## Concrete fixtures used to instantiate the theorems -/

/-- A raw maneuver as OSRM returns it for a left turn. -/
def exManeuver : RawManeuver := ⟨some "turn", some "left", some (73, 33), none⟩

/-- A raw step on a named road. -/
def exRawStep : RawStep := ⟨some exManeuver, 10, 5, some "Elm Street"⟩

/-- A leg holding exactly one step. -/
def exLeg : RawLeg := ⟨some [exRawStep]⟩

/-- A raw route candidate with one leg. -/
def exRawRoute : RawRoute := ⟨1500, 125, [(73, 33), (74, 31)], some [exLeg]⟩

/-- A successful routing response with a single candidate. -/
def exResponse : RoutingResponse := ⟨"Ok", [exRawRoute]⟩

/-- An itinerary standing for one already on display. -/
def exRouteInfo : RouteInfo := ⟨100, 60, [], []⟩

/-- A start point picked from a city marker. -/
def exStart : RoutePoint := ⟨(73, 33), some "Islamabad"⟩

/-- An end point picked from a city marker. -/
def exEnd : RoutePoint := ⟨(74, 31), some "Lahore"⟩

/-- A component state with both points set, an itinerary on display and
the step cursor moved to step 2 by the user. -/
def exState : MapState :=
  ⟨some exStart, some exEnd, some exRouteInfo, false, TravelMode.driving,
    none, true, 2⟩

/-! ## Shared helper lemmas -/

/-- Appending to a non-empty string stays non-empty. -/
theorem append_ne_empty (s t : String) (h : s ≠ "") : s ++ t ≠ "" := by
  intro hc
  apply h
  have hdata := congrArg String.data hc
  simp only [String.data_append] at hdata
  rcases List.append_eq_nil.mp hdata with ⟨h1, _⟩
  cases s
  simp_all

/-- `orDefault` with a non-empty default is non-empty. -/
theorem orDefault_ne_empty (o : Option String) (d : String) (hd : d ≠ "") :
    orDefault o d ≠ "" := by
  cases o with
  | none => exact hd
  | some s =>
    by_cases hs : s = "" <;> simp [orDefault, hs, hd]

/-- A falsy optional string makes `orDefault` return the default. -/
theorem orDefault_of_falsy (o : Option String) (d : String)
    (h : strTruthy o = false) : orDefault o d = d := by
  cases o with
  | none => rfl
  | some s =>
    have hs : s = "" := by simpa [strTruthy] using h
    simp [orDefault, hs]

/-- A truthy optional string passes through `orDefault` unchanged. -/
theorem orDefault_of_truthy (s : String) (d : String) (h : s ≠ "") :
    orDefault (some s) d = s := by
  simp [orDefault, h]

set_option maxHeartbeats 1000000 in
/-- `formatManeuver` never produces the empty string, whatever the raw
type, modifier and road name are. -/
theorem formatManeuver_ne_empty (type modifier name : Option String) :
    formatManeuver type modifier name ≠ "" := by
  unfold formatManeuver
  split_ifs <;>
    first
      | exact append_ne_empty _ _ (append_ne_empty _ _ (by decide))
      | exact append_ne_empty _ _ (by decide)
      | decide

/-- A maneuver type outside `recognizedManeuverTypes` (or an absent one)
falls to the `default` case of the switch. -/
theorem formatManeuver_default (type modifier name : Option String)
    (h : ∀ x, type = some x → x ∉ recognizedManeuverTypes) :
    formatManeuver type modifier name = "Continue" ++ jsRoadName name := by
  cases type with
  | none => simp [formatManeuver]
  | some x =>
    have hx := h x rfl
    simp only [recognizedManeuverTypes, List.mem_cons, List.not_mem_nil,
      or_false, not_or] at hx
    obtain ⟨h1, h2, h3, h4, h5, h6, h7, h8, h9, h10, h11, h12⟩ := hx
    simp [formatManeuver, h1, h2, h3, h4, h5, h6, h7, h8, h9, h10, h11, h12]

/-- Characterisation of `Rat.floor` by its bracketing inequalities. -/
theorem ratFloor_eq_of (q : ℚ) (n : ℤ) (h1 : (n : ℚ) ≤ q) (h2 : q < n + 1) :
    Rat.floor q = n := by
  have hl : n ≤ Rat.floor q := Rat.le_floor.mpr h1
  have hu : ¬(n + 1 ≤ Rat.floor q) := by
    intro hc
    have := Rat.le_floor.mp hc
    push_cast at this
    linarith
  omega

/-- The floor of a proper fraction is zero. -/
theorem jsFloor_div_eq_zero (s b : ℚ) (hb : 0 < b) (h0 : 0 ≤ s) (h1 : s < b) :
    jsFloor (s / b) = 0 := by
  unfold jsFloor
  apply ratFloor_eq_of
  · push_cast
    positivity
  · push_cast
    norm_num
    rw [div_lt_one hb]
    linarith

/-- The JS remainder is the identity below the modulus. -/
theorem jsMod_self_of_lt (s b : ℚ) (hb : 0 < b) (h0 : 0 ≤ s) (h1 : s < b) :
    jsMod s b = s := by
  unfold jsMod ratTrunc
  rw [if_pos (div_nonneg h0 hb.le)]
  have hfl : Rat.floor (s / b) = 0 := by
    apply ratFloor_eq_of
    · push_cast
      positivity
    · push_cast
      norm_num
      rw [div_lt_one hb]
      linarith
  rw [hfl]
  push_cast
  ring

/-- Below 1000 m, `formatDistance` takes the metre branch. -/
theorem formatDistance_lt (d : ℚ) (h1 : d < 1000) :
    formatDistance d = toString (jsRound d) ++ " m" := by
  unfold formatDistance
  rw [if_neg (not_le.mpr h1)]

/-- From 1000 m upward, `formatDistance` takes the kilometre branch. -/
theorem formatDistance_ge (d : ℚ) (h1 : 1000 ≤ d) :
    formatDistance d = toFixedOne (d / 1000) ++ " km" := by
  unfold formatDistance
  rw [if_pos h1]

/-- Below one hour, `formatDuration` prints whole minutes. -/
theorem formatDuration_lt_hour (s : ℚ) (h0 : 0 ≤ s) (h1 : s < 3600) :
    formatDuration s = toString (jsFloor (s / 60)) ++ " min" := by
  unfold formatDuration
  rw [jsMod_self_of_lt s 3600 (by norm_num) h0 h1,
    jsFloor_div_eq_zero s 3600 (by norm_num) h0 h1]
  simp

/-- From one hour upward, `formatDuration` prints hours and remaining
minutes. -/
theorem formatDuration_ge_hour (s : ℚ) (h1 : 3600 ≤ s) :
    formatDuration s =
      toString (jsFloor (s / 3600)) ++ "h " ++
        toString (jsFloor (jsMod s 3600 / 60)) ++ "m" := by
  unfold formatDuration
  rw [if_pos]
  unfold jsFloor
  have : (1 : ℤ) ≤ Rat.floor (s / 3600) := by
    apply Rat.le_floor.mpr
    push_cast
    rw [le_div_iff₀ (by norm_num)]
    linarith
  omega

/-- On a response with `code = "Ok"` and at least one candidate,
`calculateRoute` builds the itinerary from the head candidate, copying its
top-level distance, duration and geometry verbatim. -/
theorem calculateRoute_ok (data : RoutingResponse) (route : RawRoute)
    (rest : List RawRoute) (hcode : data.code = "Ok")
    (hroutes : data.routes = route :: rest) :
    calculateRoute data =
      some { distance := route.distance
             duration := route.duration
             geometry := route.geometry
             steps := extractSteps route.legs } := by
  unfold calculateRoute
  rw [hcode, hroutes]
  simp

/-! ## Claim theorems -/

/-- C3: `formatManeuver` is pure and total: for every (type, modifier,
road name) input, including an unrecognized or absent maneuver type, it
returns a non-empty instruction string, and every unrecognized type yields
the generic "Continue" instruction with the road name appended when
present (the `jsRoadName` suffix). -/
theorem formatManeuver_total (type modifier name : Option String) :
    formatManeuver type modifier name ≠ "" ∧
    ((∀ x, type = some x → x ∉ recognizedManeuverTypes) →
      formatManeuver type modifier name = "Continue" ++ jsRoadName name) :=
  ⟨formatManeuver_ne_empty type modifier name,
    formatManeuver_default type modifier name⟩

/-- Witness for C3: the unrecognized type "zigzag" with a road name gives
"Continue onto Main Street", and the fully absent input gives "Continue";
both are non-empty. -/
theorem formatManeuver_total_witness :
    formatManeuver (some "zigzag") none (some "Main Street") ≠ "" ∧
    formatManeuver (some "zigzag") none (some "Main Street") =
      "Continue onto Main Street" ∧
    formatManeuver none none none = "Continue" := by
  have h1 := formatManeuver_total (some "zigzag") none (some "Main Street")
  have h2 := formatManeuver_total none none none
  refine ⟨h1.1, ?_, ?_⟩
  · have hno : ∀ x, (some "zigzag" : Option String) = some x →
        x ∉ recognizedManeuverTypes := by
      intro x hx
      injection hx with he
      subst he
      decide
    rw [h1.2 hno]
    decide
  · rw [h2.2 (by intro x hx; cases hx)]
    decide

/-- C8: for every non-negative number of metres `d`, `formatDistance`
returns the rounded whole-metre value with unit "m" below 1000 and the
kilometre value to one decimal place with unit "km" from 1000 upward; in
particular 950 formats as "950 m" and 1500 as "1.5 km". -/
theorem formatDistance_spec (d : ℚ) (h : 0 ≤ d) :
    (d < 1000 → formatDistance d = toString (jsRound d) ++ " m") ∧
    (1000 ≤ d → formatDistance d = toFixedOne (d / 1000) ++ " km") ∧
    formatDistance 950 = "950 m" ∧ formatDistance 1500 = "1.5 km" := by
  refine ⟨formatDistance_lt d, formatDistance_ge d, ?_, ?_⟩
  · rw [formatDistance_lt 950 (by norm_num)]
    have hr : jsRound (950 : ℚ) = 950 := by
      unfold jsRound
      apply ratFloor_eq_of <;> push_cast <;> norm_num
    rw [hr]
    decide
  · rw [formatDistance_ge 1500 (by norm_num)]
    unfold toFixedOne
    have hr : Rat.floor ((1500 : ℚ) / 1000 * 10 + 1/2) = 15 := by
      apply ratFloor_eq_of <;> push_cast <;> norm_num
    rw [hr]
    decide

/-- Witness for C8: the two concrete formattings named by the claim. -/
theorem formatDistance_spec_witness :
    formatDistance 950 = "950 m" ∧ formatDistance 1500 = "1.5 km" := by
  have h := formatDistance_spec 950 (by norm_num)
  exact ⟨h.2.2.1, h.2.2.2⟩

/-- C9: for every non-negative number of seconds `s`, `formatDuration`
returns whole minutes with suffix " min" below one hour and
"{h}h {m}m" with whole hours and remaining whole minutes from one hour
upward; in particular 125 formats as "2 min" and 4000 as "1h 6m". -/
theorem formatDuration_spec (s : ℚ) (h : 0 ≤ s) :
    (s < 3600 → formatDuration s = toString (jsFloor (s / 60)) ++ " min") ∧
    (3600 ≤ s → formatDuration s =
      toString (jsFloor (s / 3600)) ++ "h " ++
        toString (jsFloor (jsMod s 3600 / 60)) ++ "m") ∧
    formatDuration 125 = "2 min" ∧ formatDuration 4000 = "1h 6m" := by
  refine ⟨formatDuration_lt_hour s h, formatDuration_ge_hour s, ?_, ?_⟩
  · rw [formatDuration_lt_hour 125 (by norm_num) (by norm_num)]
    have hf : jsFloor ((125 : ℚ) / 60) = 2 := by
      unfold jsFloor
      apply ratFloor_eq_of <;> push_cast <;> norm_num
    rw [hf]
    decide
  · rw [formatDuration_ge_hour 4000 (by norm_num)]
    have hh : jsFloor ((4000 : ℚ) / 3600) = 1 := by
      unfold jsFloor
      apply ratFloor_eq_of <;> push_cast <;> norm_num
    have hm : jsMod (4000 : ℚ) 3600 = 400 := by
      unfold jsMod ratTrunc
      rw [if_pos (by norm_num)]
      have hfl : Rat.floor ((4000 : ℚ) / 3600) = 1 := by
        apply ratFloor_eq_of <;> push_cast <;> norm_num
      rw [hfl]
      push_cast
      norm_num
    rw [hh, hm]
    have hf : jsFloor ((400 : ℚ) / 60) = 6 := by
      unfold jsFloor
      apply ratFloor_eq_of <;> push_cast <;> norm_num
    rw [hf]
    decide

/-- Witness for C9: the two concrete formattings named by the claim. -/
theorem formatDuration_spec_witness :
    formatDuration 125 = "2 min" ∧ formatDuration 4000 = "1h 6m" := by
  have h := formatDuration_spec 125 (by norm_num)
  exact ⟨h.2.2.1, h.2.2.2⟩

/-- C10: `buildStep` substitutes fixed defaults for missing raw fields —
a falsy (missing or empty) road name becomes "Unnamed road", a falsy
maneuver type becomes "continue", and a falsy service-provided instruction
is replaced by the `formatManeuver` synthesis from the raw type, modifier
and road name — so every built step has a non-empty instruction, name and
maneuver type. -/
theorem buildStep_defaults (step : RawStep) :
    (strTruthy step.name = false → (buildStep step).name = "Unnamed road") ∧
    (strTruthy (step.maneuver.bind RawManeuver.type) = false →
      (buildStep step).maneuver.type = "continue") ∧
    (strTruthy (step.maneuver.bind RawManeuver.instruction) = false →
      (buildStep step).instruction =
        formatManeuver (step.maneuver.bind RawManeuver.type)
          (step.maneuver.bind RawManeuver.modifier) step.name) ∧
    (buildStep step).instruction ≠ "" ∧
    (buildStep step).name ≠ "" ∧
    (buildStep step).maneuver.type ≠ "" :=
  ⟨fun h => orDefault_of_falsy _ _ h,
    fun h => orDefault_of_falsy _ _ h,
    fun h => orDefault_of_falsy _ _ h,
    orDefault_ne_empty _ _ (formatManeuver_ne_empty _ _ _),
    orDefault_ne_empty _ _ (by decide),
    orDefault_ne_empty _ _ (by decide)⟩

/-- Witness for C10: a raw step with every optional field absent builds
to the fully defaulted step. -/
theorem buildStep_defaults_witness :
    (buildStep ⟨none, 5, 3, none⟩).name = "Unnamed road" ∧
    (buildStep ⟨none, 5, 3, none⟩).maneuver.type = "continue" ∧
    (buildStep ⟨none, 5, 3, none⟩).instruction = "Continue" ∧
    (buildStep ⟨none, 5, 3, none⟩).instruction ≠ "" := by
  have h := buildStep_defaults ⟨none, 5, 3, none⟩
  refine ⟨h.1 rfl, h.2.1 rfl, ?_, h.2.2.2.1⟩
  rw [h.2.2.1 rfl]
  decide

/-- C1: on a successful routing response, the itinerary's aggregate
distance and duration are the response's top-level values verbatim (no
recomputation from steps — the fields are copied from the candidate), and
only the first candidate in `data.routes` is consulted: the conclusion
depends on `route` alone, never on `rest`. -/
theorem calculateRoute_first_candidate (data : RoutingResponse)
    (route : RawRoute) (rest : List RawRoute) (hcode : data.code = "Ok")
    (hroutes : data.routes = route :: rest) :
    calculateRoute data =
      some { distance := route.distance
             duration := route.duration
             geometry := route.geometry
             steps := extractSteps route.legs } :=
  calculateRoute_ok data route rest hcode hroutes

/-- Witness for C1: with two candidates, the built itinerary carries the
first candidate's distance 1500 and duration 125, not the second's. -/
theorem calculateRoute_first_candidate_witness :
    calculateRoute ⟨"Ok", [exRawRoute, ⟨999, 888, [], none⟩]⟩ =
      some { distance := 1500, duration := 125,
             geometry := [(73, 33), (74, 31)],
             steps := extractSteps exRawRoute.legs } :=
  calculateRoute_first_candidate ⟨"Ok", [exRawRoute, ⟨999, 888, [], none⟩]⟩
    exRawRoute [⟨999, 888, [], none⟩] rfl rfl

/-- C2: on a successful routing response, the itinerary's step sequence is
exactly the flattening of each leg's built steps in leg order (each leg
contributing its steps in service order via `legSteps`), its length is the
sum of the legs' raw step counts (so nothing is dropped, deduplicated or
merged), and it is non-empty whenever some leg has at least one step. -/
theorem calculateRoute_steps_concat (data : RoutingResponse)
    (route : RawRoute) (rest : List RawRoute) (ls : List RawLeg)
    (hcode : data.code = "Ok") (hroutes : data.routes = route :: rest)
    (hlegs : route.legs = some ls) :
    (calculateRoute data).map RouteInfo.steps =
      some ((ls.map legSteps).flatten) ∧
    ((ls.map legSteps).flatten).length =
      (ls.map fun leg => ((leg.steps).getD []).length).sum ∧
    ((∃ leg ∈ ls, ∃ ss, leg.steps = some ss ∧ ss ≠ []) →
      (ls.map legSteps).flatten ≠ []) := by
  have hok := calculateRoute_ok data route rest hcode hroutes
  have hsteps : extractSteps route.legs = (ls.map legSteps).flatten := by
    rw [hlegs]
    cases ls with
    | nil => simp [extractSteps]
    | cons a l => simp [extractSteps, List.flatMap_def]
  refine ⟨by rw [hok]; simp [hsteps], ?_, ?_⟩
  · rw [List.length_flatten, List.map_map]
    congr 1
    apply List.map_congr_left
    intro leg _
    cases hls : leg.steps <;> simp [legSteps, hls]
  · rintro ⟨leg, hmem, ss, hss, hne⟩ hflat
    rw [List.flatten_eq_nil_iff] at hflat
    have hin := List.mem_map_of_mem legSteps hmem
    have hleg := hflat _ hin
    rw [legSteps, hss] at hleg
    exact hne (List.map_eq_nil_iff.mp hleg)

/-- Witness for C2: the one-leg, one-step response yields exactly that
step, and the sequence is non-empty. -/
theorem calculateRoute_steps_concat_witness :
    (calculateRoute exResponse).map RouteInfo.steps =
      some (([exLeg].map legSteps).flatten) ∧
    ([exLeg].map legSteps).flatten ≠ [] := by
  have h := calculateRoute_steps_concat exResponse exRawRoute [] [exLeg]
    rfl rfl rfl
  exact ⟨h.1, h.2.2 ⟨exLeg, by simp, [exRawStep], rfl, by simp⟩⟩

/-- C4 counterexample: the claim "clearing either point removes the
itinerary and resets the step cursor to 0" fails on the code. In
`exState` an itinerary is displayed and the cursor is at 2; pressing the
clear (X) button of the start point nulls the point but leaves the
itinerary displayed and the cursor at 2. -/
theorem clearStartPoint_keeps_itinerary :
    (clearStartPoint exState).startPoint = none ∧
    (clearStartPoint exState).routeInfo = some exRouteInfo ∧
    (clearStartPoint exState).currentStepIndex = 2 :=
  ⟨rfl, rfl, rfl⟩

/-- C4 amended: only the clear-route action (which clears both points)
removes the itinerary and resets the step cursor to 0; the per-point
clear buttons null just their point and retarget the selection, leaving
the itinerary and the step cursor unchanged. -/
theorem clear_actions_spec (s : MapState) :
    (clearRoute s).routeInfo = none ∧
    (clearRoute s).currentStepIndex = 0 ∧
    (clearRoute s).startPoint = none ∧
    (clearRoute s).endPoint = none ∧
    (clearStartPoint s).startPoint = none ∧
    (clearStartPoint s).routeInfo = s.routeInfo ∧
    (clearStartPoint s).currentStepIndex = s.currentStepIndex ∧
    (clearEndPoint s).endPoint = none ∧
    (clearEndPoint s).routeInfo = s.routeInfo ∧
    (clearEndPoint s).currentStepIndex = s.currentStepIndex :=
  ⟨rfl, rfl, rfl, rfl, rfl, rfl, rfl, rfl, rfl, rfl⟩

/-- C5 counterexample: the claim "whenever a new itinerary is created the
step cursor is 0" fails on the code. In `exState` the user has moved the
cursor to step 2; a recalculation completing successfully installs the
new itinerary while the cursor stays at 2 — `calculateRoute` never writes
`currentStepIndex`. -/
theorem runCalculateRoute_keeps_cursor :
    (runCalculateRoute exState (some exResponse)).routeInfo =
      some { distance := 1500, duration := 125,
             geometry := [(73, 33), (74, 31)],
             steps := [buildStep exRawStep] } ∧
    (runCalculateRoute exState (some exResponse)).currentStepIndex = 2 :=
  ⟨rfl, rfl⟩

/-- C5 amended: the step cursor starts at 0 in the initial component
state and is reset to 0 only by the clear-route action; creating a new
itinerary (recalculation) leaves it unchanged, and it otherwise changes
only by explicit user selection of a step (`goToStep`). -/
theorem stepCursor_spec (s : MapState) (r : Option RoutingResponse)
    (i : ℕ) :
    initialMapState.currentStepIndex = 0 ∧
    (runCalculateRoute s r).currentStepIndex = s.currentStepIndex ∧
    (goToStep s i).currentStepIndex = i ∧
    (clearRoute s).currentStepIndex = 0 := by
  refine ⟨rfl, ?_, rfl, rfl⟩
  unfold runCalculateRoute
  split
  · rfl
  · cases r with
    | none => rfl
    | some data => cases hc : calculateRoute data <;> simp [hc]

/-- C6: network failure (the `catch` path), a non-success status code and
an empty candidate list all produce the identical outcome state: the run
ends with the itinerary slot cleared (any previously displayed itinerary
included) and the calculating flag down, so no partial itinerary is ever
exposed to the UI. -/
theorem calculateRoute_failure_uniform (s : MapState)
    (data : RoutingResponse) (hs : s.startPoint.isSome)
    (he : s.endPoint.isSome)
    (hfail : data.code ≠ "Ok" ∨ data.routes = []) :
    runCalculateRoute s (some data) = runCalculateRoute s none ∧
    (runCalculateRoute s (some data)).routeInfo = none ∧
    (runCalculateRoute s (some data)).isCalculatingRoute = false := by
  have hs' := Option.isSome_iff_ne_none.mp hs
  have he' := Option.isSome_iff_ne_none.mp he
  have hguard : ¬(s.startPoint.isNone ∨ s.endPoint.isNone) := by
    simp [Option.isNone_iff_eq_none, hs', he']
  have hnone : calculateRoute data = none := by
    unfold calculateRoute
    rcases hfail with h | h
    · rw [if_neg]
      intro hc
      exact h hc.1
    · rw [if_neg]
      intro hc
      rw [h] at hc
      simp at hc
  refine ⟨?_, ?_, ?_⟩ <;> simp [runCalculateRoute, hguard, hs', he', hnone]

/-- Witness for C6: in `exState` (itinerary on display), the response
with a failure status and no candidates ends in the same state as a
network failure, with the itinerary cleared and the flag down. -/
theorem calculateRoute_failure_uniform_witness :
    runCalculateRoute exState (some ⟨"NoRoute", []⟩) =
      runCalculateRoute exState none ∧
    (runCalculateRoute exState (some ⟨"NoRoute", []⟩)).routeInfo = none ∧
    (runCalculateRoute exState
      (some ⟨"NoRoute", []⟩)).isCalculatingRoute = false :=
  calculateRoute_failure_uniform exState ⟨"NoRoute", []⟩ rfl rfl (Or.inr rfl)

/-- C7: the enabled flag is consulted at the moment of each `speak`
attempt — when disabled the request leaves the state untouched (silently
dropped); a request arriving while an utterance is in flight is likewise
dropped rather than queued; toggling off cancels whatever the speech
service holds; and every operation preserves "at most one utterance held
by the speech service", which holds initially. -/
theorem voiceGuidance_gating (v : VoiceGuidance) (t : String) :
    (v.enabled = false → VoiceGuidance.speak v t = v) ∧
    (v.speaking = true → VoiceGuidance.speak v t = v) ∧
    (v.enabled = true → (VoiceGuidance.toggle v).enabled = false ∧
      (VoiceGuidance.toggle v).queue = []) ∧
    (v.queue.length ≤ 1 →
      (VoiceGuidance.speak v t).queue.length ≤ 1 ∧
      (VoiceGuidance.toggle v).queue.length ≤ 1 ∧
      (VoiceGuidance.onUtteranceStart v).queue.length ≤ 1 ∧
      (VoiceGuidance.onUtteranceEnd v).queue.length ≤ 1 ∧
      (VoiceGuidance.stop v).queue.length ≤ 1) ∧
    VoiceGuidance.init.queue.length ≤ 1 := by
  refine ⟨?_, ?_, ?_, ?_, by decide⟩
  · intro h
    simp [VoiceGuidance.speak, h]
  · intro h
    simp [VoiceGuidance.speak, h]
  · intro h
    unfold VoiceGuidance.toggle
    rw [if_pos h]
    exact ⟨rfl, rfl⟩
  · intro h
    refine ⟨?_, ?_, ?_, ?_, ?_⟩
    · unfold VoiceGuidance.speak
      split
      · exact h
      · simp
    · unfold VoiceGuidance.toggle
      split
      · simp
      · exact h
    · simpa [VoiceGuidance.onUtteranceStart] using h
    · simp only [VoiceGuidance.onUtteranceEnd, List.length_drop]
      omega
    · simp [VoiceGuidance.stop]

/-- Witness for C7: an in-flight utterance makes a new request a no-op;
toggling off from the same state cancels the held utterance; a disabled
state drops a request; and a fresh request from the idle enabled state
leaves at most one utterance held. -/
theorem voiceGuidance_gating_witness :
    VoiceGuidance.speak ⟨true, true, ["a"]⟩ "b" = ⟨true, true, ["a"]⟩ ∧
    (VoiceGuidance.toggle ⟨true, true, ["a"]⟩).queue = [] ∧
    VoiceGuidance.speak ⟨false, false, []⟩ "b" = ⟨false, false, []⟩ ∧
    (VoiceGuidance.speak ⟨true, false, []⟩ "hello").queue.length ≤ 1 :=
  ⟨(voiceGuidance_gating ⟨true, true, ["a"]⟩ "b").2.1 rfl,
    ((voiceGuidance_gating ⟨true, true, ["a"]⟩ "b").2.2.1 rfl).2,
    (voiceGuidance_gating ⟨false, false, []⟩ "b").1 rfl,
    ((voiceGuidance_gating ⟨true, false, []⟩ "hello").2.2.2.1
      (by decide)).1⟩

end MapViewer
